import Mathlib

/-!
Verification of the `openclaw-skill-ghost` repository: a shallow embedding of
the init check-list script (`src/scripts/init.py`) and of the authenticated
Ghost client core it calls (the `ghost` module: permission gate, token
generator, request executor and resource operations).  The `ghost` module
itself is not present in the repository snapshot; its behaviour is modelled
from the specification where needed, and every such definition is marked
`Modelled from the spec:` in its doc comment.  Everything concerning the
init script itself is translated directly from `src/scripts/init.py`.
-/

namespace Ghost

/-- JSON values, as returned by the remote API and manipulated by the
Python code via dictionary access. Numbers are modelled as integers, which
is all the init script ever reads. -/
inductive Json where
  | null : Json
  | bool : Bool → Json
  | num : Int → Json
  | str : String → Json
  | arr : List Json → Json
  | obj : List (String × Json) → Json
deriving Repr

/-- Lookup of a key in a JSON object's field list, first binding wins
(Python dict lookup; duplicate keys cannot arise from `json.loads` but the
lookup is still well defined). -/
def dictLookup (fields : List (String × Json)) (k : String) : Option Json :=
  match fields with
  | [] => none
  | (k', v) :: rest => if k' = k then some v else dictLookup rest k

/-- Python's `d.get(key, default)` on a JSON object: the stored value when
the key is present, the default otherwise.  Calling `.get` on a non-object
raises `AttributeError` in Python, modelled as `Except.error`. -/
def jsonGet (j : Json) (k : String) (dflt : Json) : Except String Json :=
  match j with
  | Json.obj fields =>
      match dictLookup fields k with
      | some v => Except.ok v
      | none => Except.ok dflt
  | _ => Except.error "AttributeError"

/-- The expression `result.get("meta", \x7b\x7d).get("pagination", \x7b\x7d).get("total", "?")`
from `src/scripts/init.py` lines 131, 138 and 259: the unwrapping of the
pagination total that every list check (posts, tags, members) performs,
with `"?"` as the marker for an unknown total. -/
def extractTotal (result : Json) : Except String Json := do
  let meta ← jsonGet result "meta" (Json.obj [])
  let pagination ← jsonGet meta "pagination" (Json.obj [])
  jsonGet pagination "total" (Json.str "?")

/-- The permission configuration file's contents, as read by the client and
consulted by `init.py` through `cfg.get(key, default)`: each of the four
documented keys is either present with a boolean value or absent.  Mirrors
the config schema consumed at `init.py` lines 109, 169, 202 and 254. -/
structure Config where
  readonly_mode : Option Bool
  allow_publish : Option Bool
  allow_delete : Option Bool
  allow_member_access : Option Bool
deriving Repr, DecidableEq

/-- `cfg.get("readonly_mode", False)` — `init.py` line 109. -/
def Config.getReadonly (c : Config) : Bool := c.readonly_mode.getD false

/-- `cfg.get("allow_publish", True)` — `init.py` line 169. -/
def Config.getAllowPublish (c : Config) : Bool := c.allow_publish.getD true

/-- `cfg.get("allow_delete", False)` — `init.py` line 202. -/
def Config.getAllowDelete (c : Config) : Bool := c.allow_delete.getD false

/-- `cfg.get("allow_member_access", False)` — `init.py` line 254. -/
def Config.getAllowMember (c : Config) : Bool := c.allow_member_access.getD false

/-- PolicyConfig (§3): the four boolean flags after defaulting. -/
structure PolicyConfig where
  readonly_mode : Bool
  allow_publish : Bool
  allow_delete : Bool
  allow_member_access : Bool
deriving Repr, DecidableEq

/-- The operative policy a configuration denotes, applying the stated
defaults (§6 config schema). -/
def Config.policy (c : Config) : PolicyConfig :=
  { readonly_mode := c.getReadonly
    allow_publish := c.getAllowPublish
    allow_delete := c.getAllowDelete
    allow_member_access := c.getAllowMember }

/-- OperationKind (§3): classification of every client call. -/
inductive OperationKind where
  | Read | Write | Publish | Unpublish | Delete | MemberRead
deriving Repr, DecidableEq

/-- Permission Gate decision (§4.2): allow, or deny with a reason. -/
inductive Decision where
  | allow : Decision
  | deny : String → Decision
deriving Repr, DecidableEq

/-- Modelled from the spec: the Permission Gate `check` of the missing
`ghost` module, following the §4.2 decision table in its stated precedence
order (first match wins). -/
def check (kind : OperationKind) (p : PolicyConfig) : Decision :=
  if p.readonly_mode ∧ kind ≠ OperationKind.Read ∧ kind ≠ OperationKind.MemberRead then
    Decision.deny "readonly_mode"
  else if (kind = OperationKind.Publish ∨ kind = OperationKind.Unpublish) ∧ ¬p.allow_publish then
    Decision.deny "allow_publish=false"
  else if kind = OperationKind.Delete ∧ ¬p.allow_delete then
    Decision.deny "allow_delete=false"
  else if kind = OperationKind.MemberRead ∧ ¬p.allow_member_access then
    Decision.deny "allow_member_access=false"
  else
    Decision.allow

/-! ## Token Generator (§4.1), modelled from the spec -/

/-- Credentials (§3): key identifier and the hex-encoded secret, as stored
on the credential file line `key_id:secret_hex` (§6). -/
structure Credentials where
  key_id : String
  secret_hex : String
deriving Repr, DecidableEq

/-- Value of a hexadecimal digit character, `none` when the character is
not a hex digit. -/
def hexDigitVal (c : Char) : Option Nat :=
  if '0' ≤ c ∧ c ≤ '9' then some (c.toNat - '0'.toNat)
  else if 'a' ≤ c ∧ c ≤ 'f' then some (c.toNat - 'a'.toNat + 10)
  else if 'A' ≤ c ∧ c ≤ 'F' then some (c.toNat - 'A'.toNat + 10)
  else none

/-- Decode a list of hex digit characters, two per byte; fails on an odd
length or a non-hex character. -/
def hexDecodeChars : List Char → Option (List Nat)
  | [] => some []
  | [_] => none
  | hi :: lo :: rest =>
      match hexDigitVal hi, hexDigitVal lo, hexDecodeChars rest with
      | some h, some l, some bytes => some ((h * 16 + l) :: bytes)
      | _, _, _ => none

/-- Hex decoding of the secret string into key bytes. -/
def hexDecode (s : String) : Option (List Nat) := hexDecodeChars s.toList

/-- AuthToken header (§3): algorithm, type and key identifier claims. -/
structure TokenHeader where
  algorithm : String
  typ : String
  key_id : String
deriving Repr, DecidableEq

/-- AuthToken payload (§3): issue time, expiry and audience claims. -/
structure TokenPayload where
  issued_at : Nat
  expires_at : Nat
  audience : String
deriving Repr, DecidableEq

/-- AuthToken (§3): header, payload and keyed-hash signature segments. -/
structure AuthToken where
  header : TokenHeader
  payload : TokenPayload
  signature : Nat
deriving Repr, DecidableEq

/-- Modelled from the spec: the keyed hash over the encoded header and
payload segments (§4.1).  The real code (the missing `ghost` module, used
by `_make_jwt`) computes HMAC-SHA256; here it is a deterministic keyed
fold, which preserves the properties at issue (purity and determinism of
the signature in the key and message). -/
def keyedHash (key : List Nat) (msg : List Nat) : Nat :=
  (key ++ msg).foldl (fun a b => (a * 31 + b) % 4294967296) 7

/-- Serialisation of the signing input: the data the keyed hash covers,
determined by the header and payload claims. -/
def signingInput (h : TokenHeader) (p : TokenPayload) : List Nat :=
  (h.algorithm ++ "." ++ h.typ ++ "." ++ h.key_id ++ "." ++ toString p.issued_at
    ++ "." ++ toString p.expires_at ++ "." ++ p.audience).toList.map Char.toNat

/-- The error kinds of §7, flat taxonomy. -/
inductive ApiError where
  | InvalidCredentialsError
  | PermissionDeniedError : String → ApiError
  | AuthenticationError
  | NotFoundError
  | ConflictError
  | RemoteApiError : Nat → String → ApiError
  | TransportError
  | DecodeError
deriving Repr, DecidableEq

/-- Modelled from the spec: `mint(credentials, now) -> AuthToken` of the
missing `ghost` module (`_make_jwt`), per §4.1: header with algorithm and
key id, payload with issue time `now`, expiry `now + 300` seconds and the
fixed admin audience, signature a keyed hash using the hex-decoded secret;
fails with `InvalidCredentialsError` when the secret is not valid hex. -/
def mint (c : Credentials) (now : Nat) : Except ApiError AuthToken :=
  match hexDecode c.secret_hex with
  | none => Except.error ApiError.InvalidCredentialsError
  | some key =>
      let header : TokenHeader := { algorithm := "HS256", typ := "JWT", key_id := c.key_id }
      let payload : TokenPayload := { issued_at := now, expires_at := now + 300, audience := "/admin/" }
      Except.ok { header := header, payload := payload,
                  signature := keyedHash key (signingInput header payload) }

/-- The expiry claim of a minting outcome, `none` on failure. -/
def tokenExpiry : Except ApiError AuthToken → Option Nat
  | Except.ok tok => some tok.payload.expires_at
  | Except.error _ => none

/-- The issue-time claim of a minting outcome, `none` on failure. -/
def tokenIssued : Except ApiError AuthToken → Option Nat
  | Except.ok tok => some tok.payload.issued_at
  | Except.error _ => none

/-! ## Request Executor (§4.3), modelled from the spec -/

/-- A remote response as the executor sees it: either an HTTP status with
a body excerpt and the result of parsing the body as JSON (`none` when the
body is malformed), or a transport-level failure (network error or
timeout). -/
inductive Response where
  | http : Nat → String → Option Json → Response
  | transportFailure : Response

/-- Modelled from the spec: the response interpretation of the Request
Executor of the missing `ghost` module (§4.3): 2xx parses and returns the
JSON body (`DecodeError` when malformed), 401/403 fail with
`AuthenticationError`, 404 with `NotFoundError`, other 4xx/5xx with
`RemoteApiError`, transport failure with `TransportError`. -/
def interpret (r : Response) : Except ApiError Json :=
  match r with
  | Response.transportFailure => Except.error ApiError.TransportError
  | Response.http status excerpt parsed =>
      if 200 ≤ status ∧ status ≤ 299 then
        match parsed with
        | some j => Except.ok j
        | none => Except.error ApiError.DecodeError
      else if status = 401 ∨ status = 403 then Except.error ApiError.AuthenticationError
      else if status = 404 then Except.error ApiError.NotFoundError
      else Except.error (ApiError.RemoteApiError status excerpt)

/-- Whether an outcome is a local policy denial (`PermissionDeniedError`). -/
def isPermissionDenied : Except ApiError Json → Bool
  | Except.error (ApiError.PermissionDeniedError _) => true
  | _ => false

/-- The reason of a local policy denial, `none` for any other outcome. -/
def deniedReason : Except ApiError Json → Option String
  | Except.error (ApiError.PermissionDeniedError r) => some r
  | _ => none

/-! ## Resource Operations (§4.4), modelled from the spec -/

/-- An HTTP request as issued by the executor: method and path. -/
structure HttpRequest where
  method : String
  path : String
deriving Repr, DecidableEq

/-- Modelled from the spec: the composition every resource operation of
the missing `ghost` module follows (§4.4): consult the Permission Gate;
on deny, fail with `PermissionDeniedError(reason)` issuing no request;
on allow, issue exactly one HTTP request and interpret the response.
Returns the outcome together with the requests issued. -/
def gatedOp (kind : OperationKind) (p : PolicyConfig) (req : HttpRequest)
    (response : Response) : Except ApiError Json × List HttpRequest :=
  match check kind p with
  | Decision.deny reason => (Except.error (ApiError.PermissionDeniedError reason), [])
  | Decision.allow => (interpret response, [req])

/-- Modelled from the spec: `deletePost(id)` of the missing `ghost`
module: a Delete-kind gated operation issuing `DELETE /posts/<id>/`. -/
def deletePost (p : PolicyConfig) (id : String) (response : Response) :
    Except ApiError Json × List HttpRequest :=
  gatedOp OperationKind.Delete p { method := "DELETE", path := "/posts/" ++ id ++ "/" } response

/-- ApiResource (§3): generic envelope of an id and a field mapping. -/
structure ApiResource where
  id : String
  fields : List (String × Json)

/-- Replace the first binding of a key in a field list, appending the
binding when the key is absent (the partial-update write of one field). -/
def setField : List (String × Json) → String → Json → List (String × Json)
  | [], k, v => [(k, v)]
  | (k', v') :: rest, k, v =>
      if k' = k then (k, v) :: rest else (k', v') :: setField rest k v

/-- All bindings of a field list except those of the given key. -/
def removeField (fields : List (String × Json)) (k : String) : List (String × Json) :=
  fields.filter (fun kv => kv.1 ≠ k)

/-- Modelled from the spec: the resource-state effect of `publishPost` of
the missing `ghost` module (§4.4): a partial update setting only the
`status` field to `published`, preserving every other field. -/
def publishEffect (r : ApiResource) : ApiResource :=
  { r with fields := setField r.fields "status" (Json.str "published") }

/-- Modelled from the spec: the resource-state effect of `unpublishPost`
of the missing `ghost` module (§4.4): a partial update setting only the
`status` field to `draft`, preserving every other field. -/
def unpublishEffect (r : ApiResource) : ApiResource :=
  { r with fields := setField r.fields "status" (Json.str "draft") }

/-! ## The init check-list script, `src/scripts/init.py`

The `main()` flow of the init script, embedded as a function of the loaded
configuration and of an environment describing the outcome of each
external interaction.  Client methods (`gc.get_site`, `gc.create_post`,
…) are mediated by the spec-modelled Permission Gate of the `ghost`
module; the cleanup `requests.delete` calls at lines 207–226 are issued
directly, bypassing the gate, exactly as in the source. -/

/-- A network call the init run can issue, tagged by enough data to
recover its HTTP shape.  `cleanupDeletePost`/`cleanupDeleteTag` are the
direct `requests.delete` calls of `init.py` lines 211 and 221; all the
others go through `GhostClient` methods. -/
inductive NetCall where
  | getSite
  | listPosts
  | listTags
  | createPost
  | updatePost : String → NetCall
  | publishPost : String → NetCall
  | unpublishPost : String → NetCall
  | createTag
  | deletePost : String → NetCall
  | deleteTag : String → NetCall
  | cleanupDeletePost : String → NetCall
  | cleanupDeleteTag : String → NetCall
  | listMembers
deriving Repr, DecidableEq

/-- The OperationKind classifying each call (§3, §4.4). -/
def NetCall.kind : NetCall → OperationKind
  | NetCall.getSite => OperationKind.Read
  | NetCall.listPosts => OperationKind.Read
  | NetCall.listTags => OperationKind.Read
  | NetCall.createPost => OperationKind.Write
  | NetCall.updatePost _ => OperationKind.Write
  | NetCall.publishPost _ => OperationKind.Publish
  | NetCall.unpublishPost _ => OperationKind.Unpublish
  | NetCall.createTag => OperationKind.Write
  | NetCall.deletePost _ => OperationKind.Delete
  | NetCall.deleteTag _ => OperationKind.Delete
  | NetCall.cleanupDeletePost _ => OperationKind.Delete
  | NetCall.cleanupDeleteTag _ => OperationKind.Delete
  | NetCall.listMembers => OperationKind.MemberRead

/-- A kind is mutating when it is neither Read nor MemberRead. -/
def OperationKind.isMutating : OperationKind → Bool
  | OperationKind.Read => false
  | OperationKind.MemberRead => false
  | _ => true

/-- A call is mutating when its kind is. -/
def NetCall.isMutating (c : NetCall) : Bool := c.kind.isMutating

/-- Whether a call is one of the ungated cleanup deletes. -/
def NetCall.isCleanup : NetCall → Bool
  | NetCall.cleanupDeletePost _ => true
  | NetCall.cleanupDeleteTag _ => true
  | _ => false

/-- Outcomes of the external interactions of one init run: for each call
the script may attempt, whether it succeeds (an exception otherwise), and
for the two create calls the value of `.get("id")` on the returned
resource (`none` of the outer option meaning the call raised). -/
structure Env where
  credsExist : Bool
  clientOk : Bool
  siteOk : Bool
  listPostsOk : Bool
  listTagsOk : Bool
  createPostOutcome : Option (Option String)
  updateOk : Bool
  publishOk : Bool
  unpublishOk : Bool
  createTagOutcome : Option (Option String)
  deletePostOk : Bool
  deleteTagOk : Bool
  cleanupPostOk : Bool
  cleanupTagOk : Bool
  listMembersOk : Bool
deriving Repr, DecidableEq

/-- Python truthiness of an optional string id (`if test_post_id:`):
false for `None` and for the empty string. -/
def truthy : Option String → Bool
  | none => false
  | some s => !s.isEmpty

/-- Modelled from the spec: one `GhostClient` method call of the missing
`ghost` module: consult the Permission Gate; on deny raise
`PermissionDeniedError` without network traffic (the script's
`except Exception` then records a failure); on allow issue the call, with
the environment deciding success. Returns (calls issued, success). -/
def clientCall (p : PolicyConfig) (c : NetCall) (ok : Bool) : List NetCall × Bool :=
  match check c.kind p with
  | Decision.deny _ => ([], false)
  | Decision.allow => ([c], ok)

/-- Modelled from the spec: a `GhostClient` create call returning a
resource: like `clientCall`, with the environment supplying the
`.get("id")` of the created resource on success. -/
def clientCreate (p : PolicyConfig) (c : NetCall) (outcome : Option (Option String)) :
    List NetCall × Option (Option String) :=
  match check c.kind p with
  | Decision.deny _ => ([], none)
  | Decision.allow => ([c], outcome)

/-- What one section of the init run produces: network calls issued and
the check labels recorded as passed, failed or skipped, plus cleanup
warnings printed. -/
structure StepOut where
  calls : List NetCall
  passed : List String
  failed : List String
  skipped : List String
  warnings : List String
deriving Repr, DecidableEq

/-- Concatenation of two sections' records, in run order. -/
def StepOut.append (a b : StepOut) : StepOut :=
  { calls := a.calls ++ b.calls
    passed := a.passed ++ b.passed
    failed := a.failed ++ b.failed
    skipped := a.skipped ++ b.skipped
    warnings := a.warnings ++ b.warnings }

/-- A section recording nothing. -/
def StepOut.empty : StepOut :=
  { calls := [], passed := [], failed := [], skipped := [], warnings := [] }

/-- A section that only skips one check. -/
def StepOut.skip1 (label : String) : StepOut :=
  { calls := [], passed := [], failed := [], skipped := [label], warnings := [] }

/-- Section 2 of `init.py` (lines 128–141): the two read checks. -/
def readStep (p : PolicyConfig) (env : Env) : StepOut :=
  let r1 := clientCall p NetCall.listPosts env.listPostsOk
  let r2 := clientCall p NetCall.listTags env.listTagsOk
  { calls := r1.1 ++ r2.1
    passed := (if r1.2 then ["Read posts"] else []) ++ (if r2.2 then ["Read tags"] else [])
    failed := (if r1.2 then [] else ["Read posts"]) ++ (if r2.2 then [] else ["Read tags"])
    skipped := []
    warnings := [] }

/-- Section 3 of `init.py` (lines 146–158): create the draft test post,
skipped under readonly_mode; returns the section and `test_post_id`. -/
def createPostStep (cfg : Config) (env : Env) : StepOut × Option String :=
  if cfg.getReadonly then (StepOut.skip1 "Write (create draft)", none)
  else
    let r := clientCreate cfg.policy NetCall.createPost env.createPostOutcome
    ({ calls := r.1
       passed := if r.2.isSome then ["Write (create draft)"] else []
       failed := if r.2.isSome then [] else ["Write (create draft)"]
       skipped := [], warnings := [] },
     r.2.getD none)

/-- Section 4 of `init.py` (lines 161–166): update the test post when it
exists and the run is not readonly; records nothing otherwise. -/
def updateStep (cfg : Config) (postId : Option String) (env : Env) : StepOut :=
  if truthy postId && !cfg.getReadonly then
    let r := clientCall cfg.policy (NetCall.updatePost (postId.getD "")) env.updateOk
    { calls := r.1
      passed := if r.2 then ["Write (update post)"] else []
      failed := if r.2 then [] else ["Write (update post)"]
      skipped := [], warnings := [] }
  else StepOut.empty

/-- Section 5 of `init.py` (lines 169–186): publish then unpublish the
test post; skipped when `allow_publish` is false (checked first), when
readonly, or when there is no test post. -/
def publishStep (cfg : Config) (postId : Option String) (env : Env) : StepOut :=
  if !cfg.getAllowPublish then StepOut.skip1 "Publish / Unpublish"
  else if cfg.getReadonly then StepOut.skip1 "Publish / Unpublish"
  else if truthy postId then
    let r1 := clientCall cfg.policy (NetCall.publishPost (postId.getD "")) env.publishOk
    let r2 := clientCall cfg.policy (NetCall.unpublishPost (postId.getD "")) env.unpublishOk
    { calls := r1.1 ++ r2.1
      passed := (if r1.2 then ["Publish post"] else [])
        ++ (if r2.2 then ["Unpublish post (→ draft)"] else [])
      failed := (if r1.2 then [] else ["Publish post"])
        ++ (if r2.2 then [] else ["Unpublish post (→ draft)"])
      skipped := [], warnings := [] }
  else StepOut.skip1 "Publish / Unpublish"

/-- Section 6 of `init.py` (lines 189–197): create the test tag, skipped
under readonly_mode; returns the section and `test_tag_id`. -/
def createTagStep (cfg : Config) (env : Env) : StepOut × Option String :=
  if cfg.getReadonly then (StepOut.skip1 "Write (create tag)", none)
  else
    let r := clientCreate cfg.policy NetCall.createTag env.createTagOutcome
    ({ calls := r.1
       passed := if r.2.isSome then ["Write (create tag)"] else []
       failed := if r.2.isSome then [] else ["Write (create tag)"]
       skipped := [], warnings := [] },
     r.2.getD none)

/-- Section 7 of `init.py` (lines 200–249): the delete checks.  When
`allow_delete` is false both checks are skipped and any test artifacts
are removed by direct `requests.delete` calls bypassing the gate, a
failure of which only prints a warning; when readonly both are skipped;
otherwise the gated deletes run against existing artifacts. -/
def deleteStep (cfg : Config) (postId tagId : Option String) (env : Env) : StepOut :=
  if !cfg.getAllowDelete then
    let post : List NetCall × List String :=
      if truthy postId then
        ([NetCall.cleanupDeletePost (postId.getD "")],
         if env.cleanupPostOk then []
         else ["Test post " ++ postId.getD "" ++ " could not be cleaned up. Delete manually."])
      else ([], [])
    let tag : List NetCall × List String :=
      if truthy tagId then
        ([NetCall.cleanupDeleteTag (tagId.getD "")],
         if env.cleanupTagOk then []
         else ["Test tag " ++ tagId.getD "" ++ " could not be cleaned up. Delete manually."])
      else ([], [])
    { calls := post.1 ++ tag.1
      passed := [], failed := []
      skipped := ["Delete (post)", "Delete (tag)"]
      warnings := post.2 ++ tag.2 }
  else if cfg.getReadonly then
    { calls := [], passed := [], failed := []
      skipped := ["Delete (post)", "Delete (tag)"], warnings := [] }
  else
    let post : StepOut :=
      if truthy postId then
        let r := clientCall cfg.policy (NetCall.deletePost (postId.getD "")) env.deletePostOk
        { calls := r.1
          passed := if r.2 then ["Delete (post)"] else []
          failed := if r.2 then [] else ["Delete (post)"]
          skipped := [], warnings := [] }
      else StepOut.skip1 "Delete (post)"
    let tag : StepOut :=
      if truthy tagId then
        let r := clientCall cfg.policy (NetCall.deleteTag (tagId.getD "")) env.deleteTagOk
        { calls := r.1
          passed := if r.2 then ["Delete (tag)"] else []
          failed := if r.2 then [] else ["Delete (tag)"]
          skipped := [], warnings := [] }
      else StepOut.skip1 "Delete (tag)"
    post.append tag

/-- Section 8 of `init.py` (lines 254–262): the members list check,
skipped when `allow_member_access` is false. -/
def membersStep (cfg : Config) (env : Env) : StepOut :=
  if !cfg.getAllowMember then StepOut.skip1 "Members (list)"
  else
    let r := clientCall cfg.policy NetCall.listMembers env.listMembersOk
    { calls := r.1
      passed := if r.2 then ["Members (list)"] else []
      failed := if r.2 then [] else ["Members (list)"]
      skipped := [], warnings := [] }

/-- The observable outcome of one init run: the network calls issued in
order, the recorded check labels, the cleanup warnings, and the process
exit code. -/
structure RunOut where
  trace : List NetCall
  passed : List String
  failed : List String
  skipped : List String
  warnings : List String
  exitCode : Nat
deriving Repr, DecidableEq

/-- The `main()` flow of `src/scripts/init.py` (lines 91–276): pre-flight
(credentials file, client construction), connection check with early exit,
then the read, write, update, publish, tag, delete and members sections,
and the final exit status (1 when any check failed, 0 otherwise). -/
def run (cfg : Config) (env : Env) : RunOut :=
  if !env.credsExist then
    { trace := [], passed := [], failed := [], skipped := [], warnings := [], exitCode := 1 }
  else if !env.clientOk then
    { trace := [], passed := [], failed := [], skipped := [], warnings := [], exitCode := 1 }
  else
    let p := cfg.policy
    let conn := clientCall p NetCall.getSite env.siteOk
    if !conn.2 then
      { trace := conn.1, passed := [], failed := ["Connect"], skipped := [],
        warnings := [], exitCode := 1 }
    else
      let s2 := readStep p env
      let s3 := createPostStep cfg env
      let s4 := updateStep cfg s3.2 env
      let s5 := publishStep cfg s3.2 env
      let s6 := createTagStep cfg env
      let s7 := deleteStep cfg s3.2 s6.2 env
      let s8 := membersStep cfg env
      let all := ((((((s2.append s3.1).append s4).append s5).append s6.1).append s7).append s8)
      { trace := conn.1 ++ all.calls
        passed := "Connect" :: all.passed
        failed := all.failed
        skipped := all.skipped
        warnings := all.warnings
        exitCode := if all.failed.isEmpty then 0 else 1 }

/-! ## Auxiliary observers and concrete instances used by the theorems -/

/-- Whether a gate decision is an allow. -/
def Decision.isAllow : Decision → Bool
  | Decision.allow => true
  | Decision.deny _ => false

/-- The reason of a deny decision, `none` for allow. -/
def Decision.reason : Decision → Option String
  | Decision.allow => none
  | Decision.deny r => some r

/-- The components of a run outcome that the recorded checks and the exit
status determine: everything except the cleanup warnings. -/
def RunOut.visible (r : RunOut) :
    List NetCall × List String × List String × List String × Nat :=
  (r.trace, r.passed, r.failed, r.skipped, r.exitCode)

/-- An environment with the two cleanup outcomes replaced. -/
def setCleanup (env : Env) (b1 b2 : Bool) : Env :=
  { env with cleanupPostOk := b1, cleanupTagOk := b2 }

/-- The configuration file with every key absent: all defaults operative
(readonly_mode=false, allow_publish=true, allow_delete=false,
allow_member_access=false). -/
def cfg0 : Config := { readonly_mode := none, allow_publish := none,
                       allow_delete := none, allow_member_access := none }

/-- A configuration with `readonly_mode` set to true and every other key
absent. -/
def cfgRo : Config := { readonly_mode := some true, allow_publish := none,
                        allow_delete := none, allow_member_access := none }

/-- A configuration with `allow_delete` set to true and every other key
absent. -/
def cfgDel : Config := { readonly_mode := none, allow_publish := none,
                         allow_delete := some true, allow_member_access := none }

/-- A fully successful environment: credentials present, client built,
every remote call succeeds, the created post and tag carry ids `p1` and
`t1`. -/
def env0 : Env :=
  { credsExist := true, clientOk := true, siteOk := true,
    listPostsOk := true, listTagsOk := true,
    createPostOutcome := some (some "p1"), updateOk := true,
    publishOk := true, unpublishOk := true,
    createTagOutcome := some (some "t1"),
    deletePostOk := true, deleteTagOk := true,
    cleanupPostOk := true, cleanupTagOk := true, listMembersOk := true }

/-! ## Theorems -/

/-- C2: for every PolicyConfig and OperationKind the gate check yields
exactly one decision (allow or deny), and the §4.2 precedence holds with
the readonly_mode rule first: under readonly_mode, any kind other than
Read and MemberRead is denied with reason "readonly_mode" regardless of
the remaining flags. -/
theorem check_total_readonly_precedence (kind : OperationKind) (p : PolicyConfig) :
    ((check kind p).isAllow = true ∨ (check kind p).reason.isSome = true) ∧
    ¬((check kind p).isAllow = true ∧ (check kind p).reason.isSome = true) ∧
    (p.readonly_mode = true → kind ≠ OperationKind.Read → kind ≠ OperationKind.MemberRead →
      check kind p = Decision.deny "readonly_mode") := by
  rcases p with ⟨ro, ap, ad, am⟩
  cases ro <;> cases ap <;> cases ad <;> cases am <;> cases kind <;>
    refine ⟨by decide, by decide, ?_⟩ <;> decide

/-- Witness for C2: with readonly_mode=true and allow_publish=false,
Publish is denied with reason "readonly_mode", not "allow_publish=false". -/
theorem check_total_readonly_precedence_witness :
    check OperationKind.Publish
      { readonly_mode := true, allow_publish := false,
        allow_delete := false, allow_member_access := false } =
      Decision.deny "readonly_mode" :=
  (check_total_readonly_precedence OperationKind.Publish
    { readonly_mode := true, allow_publish := false,
      allow_delete := false, allow_member_access := false }).2.2
    rfl (by decide) (by decide)

/-- C8: when a configuration key is absent, the operative defaults are
readonly_mode=false, allow_publish=true, allow_delete=false,
allow_member_access=false (`init.py` lines 109, 169, 202, 254). -/
theorem config_defaults (c : Config) :
    (c.readonly_mode = none → c.getReadonly = false) ∧
    (c.allow_publish = none → c.getAllowPublish = true) ∧
    (c.allow_delete = none → c.getAllowDelete = false) ∧
    (c.allow_member_access = none → c.getAllowMember = false) := by
  refine ⟨fun h => ?_, fun h => ?_, fun h => ?_, fun h => ?_⟩ <;>
    simp [Config.getReadonly, Config.getAllowPublish, Config.getAllowDelete,
          Config.getAllowMember, h]

/-- Witness for C8: on the all-absent configuration the four defaults are
exactly the stated ones. -/
theorem config_defaults_witness :
    cfg0.getReadonly = false ∧ cfg0.getAllowPublish = true ∧
    cfg0.getAllowDelete = false ∧ cfg0.getAllowMember = false :=
  ⟨(config_defaults cfg0).1 rfl, (config_defaults cfg0).2.1 rfl,
   (config_defaults cfg0).2.2.1 rfl, (config_defaults cfg0).2.2.2 rfl⟩

/-- C4: `mint` is deterministic in (credentials, timestamp) — in this pure
embedding, definitionally so — and whenever minting succeeds the payload
expiry equals the issue time plus exactly 300 seconds. -/
theorem mint_deterministic_expiry (c : Credentials) (t : Nat) :
    mint c t = mint c t ∧
    tokenExpiry (mint c t) = (tokenIssued (mint c t)).map (fun n => n + 300) := by
  refine ⟨rfl, ?_⟩
  unfold mint tokenExpiry tokenIssued
  cases h : hexDecode c.secret_hex <;> simp

/-- C5: a remote 401 or 403 response is interpreted as
`AuthenticationError` and never as a local `PermissionDeniedError`. -/
theorem auth_status_never_permission_denied (status : Nat) (excerpt : String)
    (parsed : Option Json) (h : status = 401 ∨ status = 403) :
    interpret (Response.http status excerpt parsed) = Except.error ApiError.AuthenticationError ∧
    isPermissionDenied (interpret (Response.http status excerpt parsed)) = false := by
  rcases h with rfl | rfl <;>
    refine ⟨?_, ?_⟩ <;> simp [interpret, isPermissionDenied]

/-- Witness for C5: a 403 response with an unparseable body. -/
theorem auth_status_never_permission_denied_witness :
    interpret (Response.http 403 "" none) = Except.error ApiError.AuthenticationError ∧
    isPermissionDenied (interpret (Response.http 403 "" none)) = false :=
  auth_status_never_permission_denied 403 "" none (Or.inr rfl)

/-- C6: the total unwrapping every list check performs (`init.py` lines
131, 138, 259) yields the unknown marker `"?"` and no error whenever the
`meta.pagination.total` chain is broken: `meta` absent, `pagination`
absent, or `total` absent. -/
theorem list_total_missing_unknown (fields mf pf : List (String × Json))
    (h : dictLookup fields "meta" = none ∨
      (dictLookup fields "meta" = some (Json.obj mf) ∧
        (dictLookup mf "pagination" = none ∨
          (dictLookup mf "pagination" = some (Json.obj pf) ∧
            dictLookup pf "total" = none)))) :
    extractTotal (Json.obj fields) = Except.ok (Json.str "?") := by
  rcases h with h1 | ⟨h1, h2 | ⟨h2, h3⟩⟩
  · simp [extractTotal, jsonGet, dictLookup, h1, bind, Except.bind]
  · simp [extractTotal, jsonGet, dictLookup, h1, h2, bind, Except.bind]
  · simp [extractTotal, jsonGet, dictLookup, h1, h2, h3, bind, Except.bind]

/-- Witness for C6: an empty pagination object, as in a response
`\x7b"posts": [], "meta": \x7b"pagination": \x7b\x7d\x7d\x7d`. -/
theorem list_total_missing_unknown_witness :
    extractTotal (Json.obj [("posts", Json.arr []),
      ("meta", Json.obj [("pagination", Json.obj [])])]) = Except.ok (Json.str "?") :=
  list_total_missing_unknown _ [("pagination", Json.obj [])] []
    (Or.inr ⟨rfl, Or.inr ⟨rfl, rfl⟩⟩)

/-- Looking up the key just written by `setField` yields the new value. -/
lemma dictLookup_setField_self (l : List (String × Json)) (k : String) (v : Json) :
    dictLookup (setField l k v) k = some v := by
  induction l with
  | nil => simp [setField, dictLookup]
  | cons kv rest ih =>
      rcases kv with ⟨k', v'⟩
      by_cases h : k' = k <;> simp [setField, dictLookup, h, ih]

/-- `setField` leaves the bindings of every other key untouched. -/
lemma removeField_setField (l : List (String × Json)) (k : String) (v : Json) :
    removeField (setField l k v) k = removeField l k := by
  induction l with
  | nil => simp [setField, removeField]
  | cons kv rest ih =>
      rcases kv with ⟨k', v'⟩
      by_cases h : k' = k <;>
        simp [setField, removeField, h, List.filter] at ih ⊢
      all_goals simp [ih]

/-- C7: publishing then unpublishing a resource leaves it with status
`draft`, the same id, and every non-status field binding unchanged. -/
theorem publish_unpublish_roundtrip (r : ApiResource) :
    dictLookup (unpublishEffect (publishEffect r)).fields "status" = some (Json.str "draft") ∧
    (unpublishEffect (publishEffect r)).id = r.id ∧
    removeField (unpublishEffect (publishEffect r)).fields "status" =
      removeField r.fields "status" := by
  refine ⟨?_, rfl, ?_⟩
  · exact dictLookup_setField_self _ _ _
  · show removeField (setField (setField r.fields "status" (Json.str "published"))
        "status" (Json.str "draft")) "status" = removeField r.fields "status"
    rw [removeField_setField, removeField_setField]

/-- C3 as stated is too strong: with readonly_mode=true and
allow_delete=false, `deletePost("abc123")` is denied with reason
"readonly_mode" (the §4.2 precedence), not "allow_delete=false". -/
theorem deletePost_reason_counterexample :
    deniedReason (deletePost
        { readonly_mode := true, allow_publish := true,
          allow_delete := false, allow_member_access := false }
        "abc123" Response.transportFailure).1 ≠ some "allow_delete=false" ∧
    deniedReason (deletePost
        { readonly_mode := true, allow_publish := true,
          allow_delete := false, allow_member_access := false }
        "abc123" Response.transportFailure).1 = some "readonly_mode" := by
  constructor <;> decide

/-- C3 amended: with allow_delete=false, `deletePost(id)` always fails
with a `PermissionDeniedError` and issues no HTTP request; when
additionally readonly_mode=false the reason is "allow_delete=false". -/
theorem deletePost_denied_amended (p : PolicyConfig) (id : String) (resp : Response)
    (h : p.allow_delete = false) :
    isPermissionDenied (deletePost p id resp).1 = true ∧
    (deletePost p id resp).2 = [] ∧
    (p.readonly_mode = false →
      deniedReason (deletePost p id resp).1 = some "allow_delete=false") := by
  rcases p with ⟨ro, ap, ad, am⟩
  cases ad with
  | true => simp at h
  | false =>
      cases ro with
      | false =>
          refine ⟨?_, ?_, fun hro => ?_⟩ <;>
            simp [deletePost, gatedOp, check, isPermissionDenied, deniedReason]
      | true =>
          refine ⟨?_, ?_, fun hro => ?_⟩
          · simp [deletePost, gatedOp, check, isPermissionDenied]
          · simp [deletePost, gatedOp, check]
          · simp at hro

/-- Witness for C3 (amended): default policy, `deletePost("abc123")`. -/
theorem deletePost_denied_amended_witness :
    isPermissionDenied (deletePost
        { readonly_mode := false, allow_publish := true,
          allow_delete := false, allow_member_access := false }
        "abc123" Response.transportFailure).1 = true ∧
    (deletePost
        { readonly_mode := false, allow_publish := true,
          allow_delete := false, allow_member_access := false }
        "abc123" Response.transportFailure).2 = [] ∧
    deniedReason (deletePost
        { readonly_mode := false, allow_publish := true,
          allow_delete := false, allow_member_access := false }
        "abc123" Response.transportFailure).1 = some "allow_delete=false" :=
  ⟨(deletePost_denied_amended _ "abc123" Response.transportFailure rfl).1,
   (deletePost_denied_amended _ "abc123" Response.transportFailure rfl).2.1,
   (deletePost_denied_amended _ "abc123" Response.transportFailure rfl).2.2 rfl⟩

/-- A call issued by a gated client call is that call, and the gate
allowed it. -/
lemma clientCall_mem {p : PolicyConfig} {c : NetCall} {ok : Bool} {d : NetCall}
    (h : d ∈ (clientCall p c ok).1) :
    d = c ∧ check c.kind p = Decision.allow := by
  unfold clientCall at h
  cases hch : check c.kind p with
  | allow => rw [hch] at h; simp at h; exact ⟨h, rfl⟩
  | deny r => rw [hch] at h; simp at h

/-- A call issued by a gated create call is that call, and the gate
allowed it. -/
lemma clientCreate_mem {p : PolicyConfig} {c : NetCall} {out : Option (Option String)}
    {d : NetCall} (h : d ∈ (clientCreate p c out).1) :
    d = c ∧ check c.kind p = Decision.allow := by
  unfold clientCreate at h
  cases hch : check c.kind p with
  | allow => rw [hch] at h; simp at h; exact ⟨h, rfl⟩
  | deny r => rw [hch] at h; simp at h

/-- The read section only issues the two gate-allowed list reads. -/
lemma readStep_mem {p : PolicyConfig} {env : Env} {c : NetCall}
    (h : c ∈ (readStep p env).calls) :
    (c = NetCall.listPosts ∨ c = NetCall.listTags) ∧ check c.kind p = Decision.allow := by
  unfold readStep at h
  simp only [List.mem_append] at h
  rcases h with h | h
  · obtain ⟨rfl, hc⟩ := clientCall_mem h; exact ⟨Or.inl rfl, hc⟩
  · obtain ⟨rfl, hc⟩ := clientCall_mem h; exact ⟨Or.inr rfl, hc⟩

/-- The create-post section only issues the gate-allowed create call. -/
lemma createPostStep_mem {cfg : Config} {env : Env} {c : NetCall}
    (h : c ∈ (createPostStep cfg env).1.calls) :
    c = NetCall.createPost ∧ check c.kind cfg.policy = Decision.allow := by
  unfold createPostStep at h
  cases hro : cfg.getReadonly with
  | true => rw [hro] at h; simp [StepOut.skip1] at h
  | false =>
      rw [hro] at h
      simp only [if_false, Bool.false_eq_true] at h
      obtain ⟨rfl, hc⟩ := clientCreate_mem h
      exact ⟨rfl, hc⟩

/-- The create-tag section only issues the gate-allowed create call. -/
lemma createTagStep_mem {cfg : Config} {env : Env} {c : NetCall}
    (h : c ∈ (createTagStep cfg env).1.calls) :
    c = NetCall.createTag ∧ check c.kind cfg.policy = Decision.allow := by
  unfold createTagStep at h
  cases hro : cfg.getReadonly with
  | true => rw [hro] at h; simp [StepOut.skip1] at h
  | false =>
      rw [hro] at h
      simp only [if_false, Bool.false_eq_true] at h
      obtain ⟨rfl, hc⟩ := clientCreate_mem h
      exact ⟨rfl, hc⟩

/-- The update section only issues a gate-allowed update call. -/
lemma updateStep_mem {cfg : Config} {postId : Option String} {env : Env} {c : NetCall}
    (h : c ∈ (updateStep cfg postId env).calls) :
    c = NetCall.updatePost (postId.getD "") ∧ check c.kind cfg.policy = Decision.allow := by
  unfold updateStep at h
  by_cases hif : (truthy postId && !cfg.getReadonly) = true
  · rw [if_pos hif] at h
    obtain ⟨rfl, hc⟩ := clientCall_mem h
    exact ⟨rfl, hc⟩
  · rw [if_neg hif] at h
    simp [StepOut.empty] at h

/-- The publish section only issues gate-allowed publish/unpublish calls. -/
lemma publishStep_mem {cfg : Config} {postId : Option String} {env : Env} {c : NetCall}
    (h : c ∈ (publishStep cfg postId env).calls) :
    (c = NetCall.publishPost (postId.getD "") ∨ c = NetCall.unpublishPost (postId.getD "")) ∧
      check c.kind cfg.policy = Decision.allow := by
  unfold publishStep at h
  by_cases h1 : (!cfg.getAllowPublish) = true
  · rw [if_pos h1] at h; simp [StepOut.skip1] at h
  · rw [if_neg h1] at h
    by_cases h2 : cfg.getReadonly = true
    · rw [if_pos h2] at h; simp [StepOut.skip1] at h
    · rw [if_neg h2] at h
      by_cases h3 : truthy postId = true
      · rw [if_pos h3] at h
        simp only [List.mem_append] at h
        rcases h with h | h
        · obtain ⟨rfl, hc⟩ := clientCall_mem h; exact ⟨Or.inl rfl, hc⟩
        · obtain ⟨rfl, hc⟩ := clientCall_mem h; exact ⟨Or.inr rfl, hc⟩
      · rw [if_neg h3] at h; simp [StepOut.skip1] at h

/-- The delete section only issues calls that are either gate-allowed or
the ungated cleanup deletes, the latter only when `allow_delete` is
false. -/
lemma deleteStep_mem {cfg : Config} {postId tagId : Option String} {env : Env} {c : NetCall}
    (h : c ∈ (deleteStep cfg postId tagId env).calls) :
    check c.kind cfg.policy = Decision.allow ∨
      (c.isCleanup = true ∧ cfg.getAllowDelete = false) := by
  unfold deleteStep at h
  cases hd : cfg.getAllowDelete with
  | false =>
      rw [hd] at h
      simp only [Bool.not_false, if_true, List.mem_append] at h
      refine Or.inr ⟨?_, rfl⟩
      rcases h with h | h
      · by_cases hp : truthy postId = true
        · rw [if_pos hp] at h; simp at h; subst h; rfl
        · rw [if_neg hp] at h; simp at h
      · by_cases ht : truthy tagId = true
        · rw [if_pos ht] at h; simp at h; subst h; rfl
        · rw [if_neg ht] at h; simp at h
  | true =>
      rw [hd] at h
      simp only [Bool.not_true, if_false, Bool.false_eq_true] at h
      by_cases hro : cfg.getReadonly = true
      · rw [if_pos hro] at h; simp at h
      · rw [if_neg hro] at h
        simp only [StepOut.append, List.mem_append] at h
        rcases h with h | h
        · by_cases hp : truthy postId = true
          · rw [if_pos hp] at h
            obtain ⟨rfl, hc⟩ := clientCall_mem h
            exact Or.inl hc
          · rw [if_neg hp] at h; simp [StepOut.skip1] at h
        · by_cases ht : truthy tagId = true
          · rw [if_pos ht] at h
            obtain ⟨rfl, hc⟩ := clientCall_mem h
            exact Or.inl hc
          · rw [if_neg ht] at h; simp [StepOut.skip1] at h

/-- The members section only issues the gate-allowed members read. -/
lemma membersStep_mem {cfg : Config} {env : Env} {c : NetCall}
    (h : c ∈ (membersStep cfg env).calls) :
    c = NetCall.listMembers ∧ check c.kind cfg.policy = Decision.allow := by
  unfold membersStep at h
  cases hm : cfg.getAllowMember with
  | false => rw [hm] at h; simp [StepOut.skip1] at h
  | true =>
      rw [hm] at h
      simp only [Bool.not_true, if_false, Bool.false_eq_true] at h
      obtain ⟨rfl, hc⟩ := clientCall_mem h
      exact ⟨rfl, hc⟩

/-- C1 as stated is violated by the source: under the all-default
configuration (so allow_delete=false) a successful run creates the test
post `p1` and then issues the ungated cleanup `DELETE` for it
(`init.py` lines 207–216) — a mutating network call the Permission Gate
does not allow for Delete under this PolicyConfig. -/
theorem init_gate_bypass_counterexample :
    cfg0.getAllowDelete = false ∧
    NetCall.cleanupDeletePost "p1" ∈ (run cfg0 env0).trace ∧
    (NetCall.cleanupDeletePost "p1").isMutating = true ∧
    check (NetCall.cleanupDeletePost "p1").kind cfg0.policy ≠ Decision.allow := by
  decide

/-- C1 amended: every mutating network call an init run issues is either
explicitly allowed by the Permission Gate for the current PolicyConfig,
or is one of the ungated cleanup deletes, which occur only when
allow_delete=false (the deliberate self-cleanup bypass of `init.py`
lines 202–226). -/
theorem init_mutating_calls_gated (cfg : Config) (env : Env) (c : NetCall)
    (hc : c ∈ (run cfg env).trace) (_hm : c.isMutating = true) :
    check c.kind cfg.policy = Decision.allow ∨
      (c.isCleanup = true ∧ cfg.getAllowDelete = false) := by
  simp only [run] at hc
  cases hcr : env.credsExist with
  | false => rw [hcr] at hc; simp at hc
  | true =>
  rw [hcr] at hc
  cases hco : env.clientOk with
  | false => rw [hco] at hc; simp at hc
  | true =>
  rw [hco] at hc
  simp only [Bool.not_true, Bool.false_eq_true, if_false] at hc
  by_cases hsite : (clientCall cfg.policy NetCall.getSite env.siteOk).2 = true
  · rw [if_neg (by simp [hsite])] at hc
    simp only [StepOut.append, List.mem_append] at hc
    rcases hc with hc | ((((((hc | hc) | hc) | hc) | hc) | hc) | hc)
    · obtain ⟨rfl, h⟩ := clientCall_mem hc; exact Or.inl h
    · exact Or.inl (readStep_mem hc).2
    · exact Or.inl (createPostStep_mem hc).2
    · exact Or.inl (updateStep_mem hc).2
    · exact Or.inl (publishStep_mem hc).2
    · exact Or.inl (createTagStep_mem hc).2
    · exact deleteStep_mem hc
    · exact Or.inl (membersStep_mem hc).2
  · rw [if_pos (by simp [Bool.not_eq_true] at hsite; simp [hsite])] at hc
    dsimp only at hc
    obtain ⟨rfl, h⟩ := clientCall_mem hc
    exact Or.inl h

/-- Witness for C1 (amended): with allow_delete=true and otherwise default
flags, the fully successful run issues the gated `deletePost("p1")`, and
it is gate-allowed. -/
theorem init_mutating_calls_gated_witness :
    check (NetCall.deletePost "p1").kind cfgDel.policy = Decision.allow ∨
      ((NetCall.deletePost "p1").isCleanup = true ∧ cfgDel.getAllowDelete = false) :=
  init_mutating_calls_gated cfgDel env0 (NetCall.deletePost "p1") (by decide) (by decide)

/-- Under readonly_mode, the create-post section skips and sets no test
post id. -/
lemma createPostStep_ro {cfg : Config} (env : Env) (h : cfg.getReadonly = true) :
    createPostStep cfg env = (StepOut.skip1 "Write (create draft)", none) := by
  simp [createPostStep, h]

/-- Under readonly_mode, the create-tag section skips and sets no test
tag id. -/
lemma createTagStep_ro {cfg : Config} (env : Env) (h : cfg.getReadonly = true) :
    createTagStep cfg env = (StepOut.skip1 "Write (create tag)", none) := by
  simp [createTagStep, h]

/-- Without a test post the update section records nothing and issues no
call. -/
lemma updateStep_none (cfg : Config) (env : Env) :
    updateStep cfg none env = StepOut.empty := by
  simp [updateStep, truthy]

/-- Without a test post the publish section always skips, whatever the
flags, issuing no call. -/
lemma publishStep_none (cfg : Config) (env : Env) :
    publishStep cfg none env = StepOut.skip1 "Publish / Unpublish" := by
  unfold publishStep
  cases cfg.getAllowPublish <;> cases cfg.getReadonly <;> simp [truthy]

/-- Without test artifacts the delete section only skips its two checks:
in particular the ungated cleanup deletes are unreachable. -/
lemma deleteStep_none (cfg : Config) (env : Env) :
    deleteStep cfg none none env =
      { calls := [], passed := [], failed := [],
        skipped := ["Delete (post)", "Delete (tag)"], warnings := [] } := by
  unfold deleteStep
  cases cfg.getAllowDelete <;> cases cfg.getReadonly <;>
    simp [truthy, StepOut.append, StepOut.skip1]

/-- C9: with readonly_mode=true in the loaded configuration, an init run
issues no mutating network call whatever the environment does: all write,
publish, tag and delete checks are skipped before any client call, and
the gate-bypassing cleanup deletes are unreachable because no test ids
are ever set. -/
theorem init_readonly_no_mutation (cfg : Config) (env : Env)
    (hro : cfg.getReadonly = true) :
    ((run cfg env).trace.all fun c => !c.isMutating) = true := by
  rw [List.all_eq_true]
  intro c hc
  simp only [run] at hc
  cases hcr : env.credsExist with
  | false => rw [hcr] at hc; simp at hc
  | true =>
  rw [hcr] at hc
  cases hco : env.clientOk with
  | false => rw [hco] at hc; simp at hc
  | true =>
  rw [hco] at hc
  simp only [Bool.not_true, Bool.false_eq_true, if_false] at hc
  by_cases hsite : (clientCall cfg.policy NetCall.getSite env.siteOk).2 = true
  · rw [if_neg (by simp [hsite])] at hc
    rw [createPostStep_ro env hro, createTagStep_ro env hro] at hc
    simp only [updateStep_none, publishStep_none, deleteStep_none,
      StepOut.append, StepOut.skip1, StepOut.empty, List.append_nil, List.nil_append,
      List.mem_append] at hc
    rcases hc with hc | hc | hc
    · obtain ⟨rfl, -⟩ := clientCall_mem hc; decide
    · obtain ⟨h1, -⟩ := readStep_mem hc
      rcases h1 with rfl | rfl <;> decide
    · obtain ⟨rfl, -⟩ := membersStep_mem hc; decide
  · rw [if_pos (by simp [Bool.not_eq_true] at hsite; simp [hsite])] at hc
    dsimp only at hc
    obtain ⟨rfl, -⟩ := clientCall_mem hc
    decide

/-- Witness for C9: the readonly configuration against the fully
successful environment. -/
theorem init_readonly_no_mutation_witness :
    ((run cfgRo env0).trace.all fun c => !c.isMutating) = true :=
  init_readonly_no_mutation cfgRo env0 rfl

/-- Replacing the cleanup outcomes does not change the credentials
check. -/
lemma setCleanup_credsExist (env : Env) (b1 b2 : Bool) :
    (setCleanup env b1 b2).credsExist = env.credsExist := rfl

/-- Replacing the cleanup outcomes does not change client construction. -/
lemma setCleanup_clientOk (env : Env) (b1 b2 : Bool) :
    (setCleanup env b1 b2).clientOk = env.clientOk := rfl

/-- Replacing the cleanup outcomes does not change the site call. -/
lemma setCleanup_siteOk (env : Env) (b1 b2 : Bool) :
    (setCleanup env b1 b2).siteOk = env.siteOk := rfl

/-- The read section ignores the cleanup outcomes. -/
lemma readStep_setCleanup (p : PolicyConfig) (env : Env) (b1 b2 : Bool) :
    readStep p (setCleanup env b1 b2) = readStep p env := rfl

/-- The create-post section ignores the cleanup outcomes. -/
lemma createPostStep_setCleanup (cfg : Config) (env : Env) (b1 b2 : Bool) :
    createPostStep cfg (setCleanup env b1 b2) = createPostStep cfg env := rfl

/-- The update section ignores the cleanup outcomes. -/
lemma updateStep_setCleanup (cfg : Config) (postId : Option String) (env : Env) (b1 b2 : Bool) :
    updateStep cfg postId (setCleanup env b1 b2) = updateStep cfg postId env := rfl

/-- The publish section ignores the cleanup outcomes. -/
lemma publishStep_setCleanup (cfg : Config) (postId : Option String) (env : Env) (b1 b2 : Bool) :
    publishStep cfg postId (setCleanup env b1 b2) = publishStep cfg postId env := rfl

/-- The create-tag section ignores the cleanup outcomes. -/
lemma createTagStep_setCleanup (cfg : Config) (env : Env) (b1 b2 : Bool) :
    createTagStep cfg (setCleanup env b1 b2) = createTagStep cfg env := rfl

/-- The members section ignores the cleanup outcomes. -/
lemma membersStep_setCleanup (cfg : Config) (env : Env) (b1 b2 : Bool) :
    membersStep cfg (setCleanup env b1 b2) = membersStep cfg env := rfl

/-- The cleanup outcomes influence only the warnings of the delete
section, never its calls or its recorded checks. -/
lemma deleteStep_cleanup_irrelevant (cfg : Config) (postId tagId : Option String)
    (env : Env) (b1 b2 : Bool) :
    (deleteStep cfg postId tagId (setCleanup env b1 b2)).calls =
      (deleteStep cfg postId tagId env).calls ∧
    (deleteStep cfg postId tagId (setCleanup env b1 b2)).passed =
      (deleteStep cfg postId tagId env).passed ∧
    (deleteStep cfg postId tagId (setCleanup env b1 b2)).failed =
      (deleteStep cfg postId tagId env).failed ∧
    (deleteStep cfg postId tagId (setCleanup env b1 b2)).skipped =
      (deleteStep cfg postId tagId env).skipped := by
  unfold deleteStep setCleanup
  cases cfg.getAllowDelete <;> cases cfg.getReadonly <;>
    cases hp : truthy postId <;> cases ht : truthy tagId <;>
      simp [StepOut.append, StepOut.skip1, hp, ht]

/-- C10: with allow_delete=false, an exception of the cleanup DELETE is
caught and never recorded as a failed check: the trace of issued calls,
the pass/fail/skip records and the exit status of the run are the same
whatever the cleanup outcomes are (only the printed warning differs). -/
theorem init_cleanup_failure_invisible (cfg : Config) (env : Env) (b1 b2 : Bool)
    (_h : cfg.getAllowDelete = false) :
    (run cfg (setCleanup env b1 b2)).visible = (run cfg env).visible := by
  obtain ⟨d1, d2, d3, d4⟩ := deleteStep_cleanup_irrelevant cfg
    (createPostStep cfg env).2 (createTagStep cfg env).2 env b1 b2
  simp only [run, setCleanup_credsExist, setCleanup_clientOk, setCleanup_siteOk,
    readStep_setCleanup, createPostStep_setCleanup, updateStep_setCleanup,
    publishStep_setCleanup, createTagStep_setCleanup, membersStep_setCleanup]
  cases hcr : env.credsExist with
  | false => rfl
  | true =>
  cases hco : env.clientOk with
  | false => rfl
  | true =>
  simp only [Bool.not_true, Bool.false_eq_true, if_false]
  by_cases hsite : (clientCall cfg.policy NetCall.getSite env.siteOk).2 = true
  · simp only [hsite, Bool.not_true, Bool.false_eq_true, if_false]
    simp only [RunOut.visible, StepOut.append, d1, d2, d3, d4]
  · rw [Bool.not_eq_true] at hsite
    simp only [hsite, Bool.not_false, if_true]

/-- Witness for C10: default configuration, fully successful run, both
cleanup calls made to fail. -/
theorem init_cleanup_failure_invisible_witness :
    (run cfg0 (setCleanup env0 false false)).visible = (run cfg0 env0).visible :=
  init_cleanup_failure_invisible cfg0 env0 false false rfl

end Ghost
